import Mathlib

/-!
Verification of the AIos orchestration pipeline (src/src/App.js).

The development shallowly embeds the two LLM call functions
(`callGeminiOrchestrator`, `callGeminiResponseGenerator`) and the send
sequencer (`handleSend`) of App.js.  External effects (fetch, the browser
JSON.parse, the Firestore batch commit) are modelled as environment inputs:
a run of a call function is parameterised by a map from attempt index to
the outcome of that network attempt, and theorems quantify over all such
environments.

Naming dictionary between the natural-language spec and the source:
the spec calls the intent tag `knowledge_response` what the source calls
`gemini_response` (same position in the enumeration, same grounding role);
the spec field `tool_label` is the source field `tool_triggered`; the spec
field `argument_summary` is the source expression `arguments.query`.
-/

/-- JavaScript/JSON values as produced by `response.json()` / `JSON.parse`.
`null` is JSON null; object fields are ordered key/value pairs.  The JS
value `undefined` is represented by `Option.none` at use sites. -/
inductive Json where
  | null : Json
  | bool (b : Bool) : Json
  | num (n : Int) : Json
  | str (s : String) : Json
  | arr (elems : List Json) : Json
  | obj (fields : List (String × Json)) : Json

/-- JS truthiness of a value (`null`, `false`, `0`, `""` are falsy;
arrays and objects are always truthy). -/
def jsTruthy : Json → Bool
  | .null => false
  | .bool b => b
  | .num n => n != 0
  | .str s => s != ""
  | .arr _ => true
  | .obj _ => true

/-- JS truthiness of a possibly-`undefined` value. -/
def jsTruthyOpt : Option Json → Bool
  | none => false
  | some v => jsTruthy v

/-- Property access `v.k` on a non-null value: field lookup on objects,
`undefined` on every other value. -/
def jsField : Json → String → Option Json
  | .obj fields, k => (fields.find? (fun p => p.1 == k)).map (·.2)
  | _, _ => none

/-- Optional-chained property access `v?.k`: short-circuits on
`undefined` and `null`. -/
def jsChainField : Option Json → String → Option Json
  | some (.obj fields), k => (fields.find? (fun p => p.1 == k)).map (·.2)
  | _, _ => none

/-- Optional-chained index access `v?.[i]`: array element, object
property named by the decimal index, or single character of a string. -/
def jsChainIndex : Option Json → Nat → Option Json
  | some (.arr elems), i => elems.get? i
  | some (.obj fields), i => (fields.find? (fun p => p.1 == toString i)).map (·.2)
  | some (.str s), i => (s.data.get? i).map (fun c => Json.str (String.mk [c]))
  | _, _ => none

mutual
/-- JS ToString coercion as used by template literals and string
concatenation: objects print as `[object Object]`, arrays join their
elements with commas (null elements printing as the empty string). -/
def jsToString : Json → String
  | .null => "null"
  | .bool b => if b then "true" else "false"
  | .num n => toString n
  | .str s => s
  | .arr elems => String.intercalate "," (jsToStringList elems)
  | .obj _ => "[object Object]"

/-- Element-wise ToString for arrays (JS `Array.prototype.join`). -/
def jsToStringList : List Json → List String
  | [] => []
  | .null :: rest => "" :: jsToStringList rest
  | v :: rest => jsToString v :: jsToStringList rest
end

/-- JS ToString of a possibly-`undefined` value (template literals print
`undefined`). -/
def jsToStr : Option Json → String
  | none => "undefined"
  | some v => jsToString v

/-- Strict equality `v === "s"` between a possibly-undefined JS value and
a string literal. -/
def jsIsStr (v : Option Json) (s : String) : Bool :=
  match v with
  | some (.str t) => t == s
  | _ => false

/-! ## Network attempts

Each iteration of the retry loops performs one `fetch` of the shared API
URL.  The environment of a run maps the attempt index to what that attempt
observed.  `JSON.parse` is the browser's parser, external to the
repository, so for the orchestrator the environment also supplies its
outcome on the extracted model text. -/

/-- Outcome of the external `JSON.parse(jsonText)` call: a parsed value,
or a thrown `SyntaxError` carrying a message. -/
inductive ParseOutcome where
  | ok (v : Json) : ParseOutcome
  | err (msg : String) : ParseOutcome

/-- What one `fetch` attempt observed: a 2xx response whose
`response.json()` is `result` (with `parse` the outcome of the external
`JSON.parse` on the extracted text, consulted only by the orchestrator),
a non-ok HTTP status, or a thrown transport error with its message. -/
inductive FetchStep where
  | success (result : Json) (parse : ParseOutcome) : FetchStep
  | httpError (status : Nat) : FetchStep
  | netError (msg : String) : FetchStep

/-- How a call function left its boundary: a normal return or a thrown
error with its message. -/
inductive CallResult (α : Type) where
  | ret (v : α) : CallResult α
  | thrown (msg : String) : CallResult α
deriving DecidableEq

/-- Observable trace of one run of a retry loop: the boundary result, the
number of fetch attempts made, the backoff delays slept (in order), and
whether control fell out of the `for` loop onto the trailing fallback
return statement. -/
structure RunResult (α : Type) where
  result : CallResult α
  fetches : Nat
  sleeps : List Nat
  fellThrough : Bool
deriving DecidableEq

/-- `MAX_RETRIES` of App.js. -/
def MAX_RETRIES : Nat := 3

/-- Whether `pat` occurs as a contiguous run inside `s`
(`String.prototype.includes`). -/
def charsIncl : List Char → List Char → Bool
  | pat, [] => pat.isEmpty
  | pat, c :: rest => pat.isPrefixOf (c :: rest) || charsIncl pat rest

/-- `s.includes(pat)` of JS. -/
def strIncludes (s pat : String) : Bool := charsIncl pat.data s.data

/-- The retry condition of both catch clauses:
`error.message.includes('Failed to fetch') ||
error.message.includes('NetworkError')`. -/
def isNetworkErrMsg (m : String) : Bool :=
  strIncludes m "Failed to fetch" || strIncludes m "NetworkError"

/-- The optional chain
`result.candidates?.[0]?.content?.parts?.[0]?.text`.  The first access
`.candidates` is not optional, so it throws a TypeError when `result` is
null; every later step is `?.`-guarded. -/
def chainText (result : Json) : Except String (Option Json) :=
  match result with
  | .null => .error "Cannot read properties of null (reading \x27candidates\x27)"
  | r =>
    let a := jsField r "candidates"
    let b := jsChainIndex a 0
    let c := jsChainField b "content"
    let d := jsChainField c "parts"
    let e := jsChainIndex d 0
    .ok (jsChainField e "text")

/-- The optional chain `result.candidates?.[0]?.groundingMetadata`. -/
def chainGrounding (result : Json) : Except String (Option Json) :=
  match result with
  | .null => .error "Cannot read properties of null (reading \x27candidates\x27)"
  | r =>
    let a := jsField r "candidates"
    .ok (jsChainField (jsChainIndex a 0) "groundingMetadata")

/-! ## Schema-constrained classifier call (`callGeminiOrchestrator`) -/

/-- `ORCHESTRATION_SCHEMA` of App.js as a JSON value.  Note it constrains
field names and types and marks the three fields required, but carries no
`enum` constraint on `intent` — the permitted intents are only described
in prose. -/
def ORCHESTRATION_SCHEMA : Json :=
  Json.obj
    [ ("type", .str "OBJECT")
    , ("properties", Json.obj
        [ ("intent", Json.obj
            [ ("type", .str "STRING")
            , ("description", .str "The primary intent or tool required: \x27calendar_tool\x27, \x27communication_tool\x27, \x27image_generation\x27, \x27gemini_response\x27, or \x27general_chat\x27.") ])
        , ("tool_triggered", Json.obj
            [ ("type", .str "STRING")
            , ("description", .str "A friendly name for the tool that was triggered (e.g., \x27Calendar API\x27, \x27Email Draft\x27, \x27Imagen Tool\x27, \x27Gemini Responder\x27).") ])
        , ("arguments", Json.obj
            [ ("type", .str "OBJECT")
            , ("description", .str "Key-value pairs representing the arguments for the selected tool.")
            , ("properties", Json.obj
                [ ("query", Json.obj
                    [ ("type", .str "STRING")
                    , ("description", .str "The original user query or a brief summary of the task.") ]) ]) ])
        ])
    , ("required", Json.arr [.str "intent", .str "tool_triggered", .str "arguments"]) ]

/-- The orchestrator's fixed system instruction. -/
def orchSystemPrompt : String :=
  "You are the AIos Orchestration Agent (gNode). Your sole purpose is to analyze the user\x27s request and categorize it into one of the following high-level intents: \x27calendar_tool\x27 (for scheduling, meetings, or time-related tasks), \x27communication_tool\x27 (for drafting emails, messages, or reports), \x27image_generation\x27 (for creating visual assets), \x27gemini_response\x27 (for queries requiring up-to-date web information or complex, multi-paragraph answers), or \x27general_chat\x27 (for all other simple conversational queries). Do not generate any text outside of the JSON structure."

/-- The request body the classifier posts on every attempt. -/
structure OrchPayload where
  contentsText : String
  systemInstructionText : String
  responseMimeType : String
  responseSchema : Json

/-- `payload` of `callGeminiOrchestrator`. -/
def orchPayload (userQuery : String) : OrchPayload :=
  { contentsText := userQuery
  , systemInstructionText := orchSystemPrompt
  , responseMimeType := "application/json"
  , responseSchema := ORCHESTRATION_SCHEMA }

/-- The synthesized result returned when the ok-response lacks truthy
structured content. -/
def orchNoContent : Json :=
  Json.obj
    [ ("intent", .str "error")
    , ("tool_triggered", .str "System Error")
    , ("arguments", Json.obj [("query", .str "Failed to parse LLM response.")]) ]

/-- The trailing fallback value after the orchestrator's retry loop. -/
def orchTimeout : Json :=
  Json.obj
    [ ("intent", .str "error")
    , ("tool_triggered", .str "API Timeout")
    , ("arguments", Json.obj [("query", .str "API call timed out after multiple retries.")]) ]

/-- The retry loop of `callGeminiOrchestrator`: `fuel` is the number of
loop iterations left (`MAX_RETRIES - i`), `i` the attempt index, `delay`
the current backoff.  The single JS catch clause is translated at each
throw site: a caught error retries only when `i < MAX_RETRIES - 1` and
its message matches `isNetworkErrMsg`; otherwise it is rethrown as
`new Error(error.message || "Unknown API error.")`. -/
def orchGo (env : Nat → FetchStep) : Nat → Nat → Nat → RunResult Json
  | 0, _, _ => { result := .ret orchTimeout, fetches := 0, sleeps := [], fellThrough := true }
  | fuel + 1, i, delay =>
    match env i with
    | .success result parse =>
      match chainText result with
      | .error m =>
        if i < MAX_RETRIES - 1 ∧ isNetworkErrMsg m then
          let r := orchGo env fuel (i + 1) (delay * 2)
          { r with fetches := r.fetches + 1, sleeps := delay :: r.sleeps }
        else
          { result := .thrown (if m == "" then "Unknown API error." else m)
          , fetches := 1, sleeps := [], fellThrough := false }
      | .ok jsonText =>
        if jsTruthyOpt jsonText then
          match parse with
          | .ok v => { result := .ret v, fetches := 1, sleeps := [], fellThrough := false }
          | .err m =>
            if i < MAX_RETRIES - 1 ∧ isNetworkErrMsg m then
              let r := orchGo env fuel (i + 1) (delay * 2)
              { r with fetches := r.fetches + 1, sleeps := delay :: r.sleeps }
            else
              { result := .thrown (if m == "" then "Unknown API error." else m)
              , fetches := 1, sleeps := [], fellThrough := false }
        else
          { result := .ret orchNoContent, fetches := 1, sleeps := [], fellThrough := false }
    | .httpError s =>
      if s = 429 ∨ 500 ≤ s then
        if i < MAX_RETRIES - 1 then
          let r := orchGo env fuel (i + 1) (delay * 2)
          { r with fetches := r.fetches + 1, sleeps := delay :: r.sleeps }
        else
          let m := "Orchestrator API returned status " ++ toString s ++ " after " ++ toString MAX_RETRIES ++ " attempts."
          if i < MAX_RETRIES - 1 ∧ isNetworkErrMsg m then
            let r := orchGo env fuel (i + 1) (delay * 2)
            { r with fetches := r.fetches + 1, sleeps := delay :: r.sleeps }
          else
            { result := .thrown (if m == "" then "Unknown API error." else m)
            , fetches := 1, sleeps := [], fellThrough := false }
      else
        let m := "Orchestrator API returned status " ++ toString s
        if i < MAX_RETRIES - 1 ∧ isNetworkErrMsg m then
          let r := orchGo env fuel (i + 1) (delay * 2)
          { r with fetches := r.fetches + 1, sleeps := delay :: r.sleeps }
        else
          { result := .thrown (if m == "" then "Unknown API error." else m)
          , fetches := 1, sleeps := [], fellThrough := false }
    | .netError m =>
      if i < MAX_RETRIES - 1 ∧ isNetworkErrMsg m then
        let r := orchGo env fuel (i + 1) (delay * 2)
        { r with fetches := r.fetches + 1, sleeps := delay :: r.sleeps }
      else
        { result := .thrown (if m == "" then "Unknown API error." else m)
        , fetches := 1, sleeps := [], fellThrough := false }

/-- `callGeminiOrchestrator(userQuery)`: builds the schema-constrained
payload and runs the retry loop from attempt 0 with a 1000ms backoff. -/
def callGeminiOrchestrator (userQuery : String) (env : Nat → FetchStep) :
    OrchPayload × RunResult Json :=
  (orchPayload userQuery, orchGo env MAX_RETRIES 0 1000)

/-! ## Grounded responder call (`callGeminiResponseGenerator`) -/

/-- The grounded system instruction (chosen for the `gemini_response`
intent — the spec calls this intent `knowledge_response`). -/
def groundedSystemPrompt : String :=
  "Act as a helpful, grounded assistant. Use Google Search to find current, factual information to answer the user\x27s query concisely and accurately. Include citation links if they are returned by the API."

/-- The plain conversational system instruction. -/
def plainSystemPrompt : String :=
  "Act as a helpful assistant, providing a concise, conversational answer."

/-- The request body the responder posts on every attempt: `tools` is the
JS `tools:` property, `none` when the source sets it to `undefined`. -/
structure RespPayload where
  contentsText : String
  systemInstructionText : String
  tools : Option Json

/-- `payload` of `callGeminiResponseGenerator(userQuery, intent)`:
grounding (`tools: [{"google_search": {}}]`) and the grounded prompt are
selected exactly when `intent === 'gemini_response'`. -/
def respPayload (userQuery : String) (intent : Option Json) : RespPayload :=
  { contentsText := userQuery
  , systemInstructionText :=
      if jsIsStr intent "gemini_response" then groundedSystemPrompt else plainSystemPrompt
  , tools :=
      if jsIsStr intent "gemini_response" then
        some (Json.arr [Json.obj [("google_search", Json.obj [])]])
      else none }

/-- One step of
`groundingAttributions.map(attr => attr.web?.title || attr.web?.uri)`:
a null element makes the plain access `attr.web` throw a TypeError. -/
def pickRef (attr : Json) : Except String (Option Json) :=
  match attr with
  | .null => .error "Cannot read properties of null (reading \x27web\x27)"
  | a =>
    let web := jsField a "web"
    let title := jsChainField web "title"
    .ok (if jsTruthyOpt title then title else jsChainField web "uri")

/-- The whole `.map` over the attribution array (JS maps every element
before `filter` runs, so a late null element still throws). -/
def mapAttrs : List Json → Except String (List (Option Json))
  | [] => .ok []
  | a :: rest =>
    match pickRef a with
    | .error m => .error m
    | .ok r =>
      match mapAttrs rest with
      | .error m => .error m
      | .ok rs => .ok (r :: rs)

/-- `.filter(Boolean).slice(0, 3)` applied to the mapped references. -/
def sourcesOf (picked : List (Option Json)) : List Json :=
  ((picked.filterMap id).filter (fun v => jsTruthy v)).take 3

/-- The citation-composition block of the responder's ok branch: yields
the `citations` string (empty when grounding metadata or attributions are
absent or falsy, or no truthy reference survives the filter). -/
def computeCitations (result : Json) : Except String String :=
  match chainGrounding result with
  | .error m => .error m
  | .ok gm =>
    if jsTruthyOpt gm then
      match gm with
      | some g =>
        let ga := jsField g "groundingAttributions"
        if jsTruthyOpt ga then
          match ga with
          | some (.arr attrs) =>
            match mapAttrs attrs with
            | .error m => .error m
            | .ok picked =>
              let sources := sourcesOf picked
              if sources.isEmpty then .ok ""
              else .ok ("\n\n**Sources:** " ++ String.intercalate ", " (sources.map jsToString))
          | _ => .error "groundingMetadata.groundingAttributions.map is not a function"
        else .ok ""
      | none => .ok ""
    else .ok ""

/-- The ok branch of the responder: extract the text, return the fixed
diagnostic when it is absent or falsy, otherwise append the citations. -/
def processRespBody (result : Json) : Except String String :=
  match chainText result with
  | .error m => .error m
  | .ok jsonText =>
    match jsonText with
    | some t =>
      if jsTruthy t then
        match computeCitations result with
        | .error m => .error m
        | .ok citations => .ok (jsToString t ++ citations)
      else .ok "Gemini failed to generate a response (no text returned)."
    | none => .ok "Gemini failed to generate a response (no text returned)."

/-- The retry loop of `callGeminiResponseGenerator`, mirrored from the
source exactly as `orchGo` is; the rethrow in its catch clause is
`new Error(`Response Generator failed: ${error.message}`)`. -/
def respGo (env : Nat → FetchStep) : Nat → Nat → Nat → RunResult String
  | 0, _, _ =>
    { result := .ret "API call to the Response Generator timed out."
    , fetches := 0, sleeps := [], fellThrough := true }
  | fuel + 1, i, delay =>
    match env i with
    | .success result _ =>
      match processRespBody result with
      | .ok s => { result := .ret s, fetches := 1, sleeps := [], fellThrough := false }
      | .error m =>
        if i < MAX_RETRIES - 1 ∧ isNetworkErrMsg m then
          let r := respGo env fuel (i + 1) (delay * 2)
          { r with fetches := r.fetches + 1, sleeps := delay :: r.sleeps }
        else
          { result := .thrown ("Response Generator failed: " ++ m)
          , fetches := 1, sleeps := [], fellThrough := false }
    | .httpError s =>
      if s = 429 ∨ 500 ≤ s then
        if i < MAX_RETRIES - 1 then
          let r := respGo env fuel (i + 1) (delay * 2)
          { r with fetches := r.fetches + 1, sleeps := delay :: r.sleeps }
        else
          let m := "Response Generator API returned status " ++ toString s ++ " after " ++ toString MAX_RETRIES ++ " attempts."
          if i < MAX_RETRIES - 1 ∧ isNetworkErrMsg m then
            let r := respGo env fuel (i + 1) (delay * 2)
            { r with fetches := r.fetches + 1, sleeps := delay :: r.sleeps }
          else
            { result := .thrown ("Response Generator failed: " ++ m)
            , fetches := 1, sleeps := [], fellThrough := false }
      else
        let m := "Response Generator API returned status " ++ toString s
        if i < MAX_RETRIES - 1 ∧ isNetworkErrMsg m then
          let r := respGo env fuel (i + 1) (delay * 2)
          { r with fetches := r.fetches + 1, sleeps := delay :: r.sleeps }
        else
          { result := .thrown ("Response Generator failed: " ++ m)
          , fetches := 1, sleeps := [], fellThrough := false }
    | .netError m =>
      if i < MAX_RETRIES - 1 ∧ isNetworkErrMsg m then
        let r := respGo env fuel (i + 1) (delay * 2)
        { r with fetches := r.fetches + 1, sleeps := delay :: r.sleeps }
      else
        { result := .thrown ("Response Generator failed: " ++ m)
        , fetches := 1, sleeps := [], fellThrough := false }

/-- `callGeminiResponseGenerator(userQuery, intent)`: builds the
conditionally-grounded payload and runs the retry loop. -/
def callGeminiResponseGenerator (userQuery : String) (intent : Option Json)
    (env : Nat → FetchStep) : RespPayload × RunResult String :=
  (respPayload userQuery intent, respGo env MAX_RETRIES 0 1000)

/-- JS `String.prototype.trim()`: strip leading and trailing
whitespace.  Implemented structurally so that concrete runs reduce. -/
def dropLeadingWs : List Char → List Char
  | [] => []
  | c :: rest => if c.isWhitespace then dropLeadingWs rest else c :: rest

/-- See `dropLeadingWs`. -/
def jsTrim (s : String) : String :=
  String.mk ((dropLeadingWs (dropLeadingWs s.data).reverse).reverse)

/-- JS `userId.substring(0, n)`. -/
def jsSubstring0 (s : String) (n : Nat) : String := String.mk (s.data.take n)

/-! ## The orchestration sequencer (`handleSend`) -/

/-- One record as `handleSend` prepares it for the batch write.  The
server-assigned timestamp sentinel (`serverTimestamp()`) is opaque to the
core and omitted; `isSystem` is `none` when the source writes no such
field (the user record). -/
structure MessageRecord where
  text : String
  userId : String
  type : Option Json
  isSystem : Option Bool
  userDisplayId : String

/-- The destructuring
`const { intent, tool_triggered, arguments: { query: querySummary } } = orchestrationResult`:
throws a TypeError when the whole value is null or its `arguments`
property is undefined or null; otherwise yields the three bindings
(each possibly `undefined`). -/
def destructureOrch (v : Json) :
    Except String (Option Json × Option Json × Option Json) :=
  match v with
  | .null => .error "Cannot destructure property \x27intent\x27 of \x27orchestrationResult\x27 as it is null."
  | w =>
    match jsField w "arguments" with
    | none => .error "Cannot destructure property \x27query\x27 of \x27orchestrationResult.arguments\x27 as it is undefined."
    | some .null => .error "Cannot destructure property \x27query\x27 of \x27orchestrationResult.arguments\x27 as it is null."
    | some args => .ok (jsField w "intent", jsField w "tool_triggered", jsField args "query")

/-- The `orchestrationResult` variable after `handleSend`'s try/catch
around the classifier: the returned value, or — when the classifier threw
— the synthesized API-Failure error-intent object built in the catch. -/
def orchestrationResultOf (run : RunResult Json) : Json :=
  match run.result with
  | .ret v => v
  | .thrown m =>
    Json.obj
      [ ("intent", .str "error")
      , ("tool_triggered", .str "API Failure")
      , ("arguments", Json.obj [("query", .str m)]) ]

/-- The `orchestrationSummary` template literal:
`Intent Classified: **${intent}**. Tool: ${tool_triggered}. Summary: "${querySummary}".` -/
def orchestrationSummary (intent tool query : Option Json) : String :=
  "Intent Classified: **" ++ jsToStr intent ++ "**. Tool: " ++ jsToStr tool ++
    ". Summary: \"" ++ jsToStr query ++ "\"."

/-- The branch of `handleSend` that composes `finalResponse`, returning
it together with the number of times `callGeminiResponseGenerator` was
invoked on this submission. -/
def branchResponse (textToSend : String) (intent tool query : Option Json)
    (respEnv : Nat → FetchStep) : String × Nat :=
  if jsIsStr intent "error" then
    ("Orchestration Failure: " ++ jsToStr tool ++ ". Details: " ++ jsToStr query, 0)
  else if jsIsStr intent "general_chat" || jsIsStr intent "gemini_response" then
    match (callGeminiResponseGenerator textToSend intent respEnv).2.result with
    | .ret answer =>
      (orchestrationSummary intent tool query ++ "\n\n--- AIos Response ---\n" ++ answer, 1)
    | .thrown m =>
      (orchestrationSummary intent tool query ++ "\n\n--- Response Generation Failed ---\n" ++
        "Error: " ++ m, 1)
  else
    (orchestrationSummary intent tool query ++
      "\n\n**Tool Execution Mock:** The UI would now transition to the generated application form for " ++
      jsToStr tool ++ ".", 0)

/-- Everything observable about one invocation of `handleSend`:
whether the entry guard admitted the submission, the classifier result
in use after the catch, a TypeError thrown out of `handleSend` by the
destructuring (escaping every handler), the records set on the batch,
how many times `batch.commit()` was invoked, the error banner, and the
final value of the `isSending` flag. -/
structure SendOutcome where
  accepted : Bool
  orchestrationResult : Option Json
  destructureError : Option String
  responderInvocations : Nat
  finalResponse : Option String
  batchRecords : List MessageRecord
  commitCalls : Nat
  errorAfter : Option String
  isSendingAfter : Bool

/-- `handleSend` of App.js.  `hasDb` is the truthiness of `db`;
`commitResult` is the outcome of the external `batch.commit()`; the
`.finally` clearing `isSending` runs only when the batch promise settles,
which the destructuring TypeError prevents from ever being created. -/
def handleSend (hasDb : Bool) (userId newMessage : String) (isSending : Bool)
    (orchEnv respEnv : Nat → FetchStep) (commitResult : Except String Unit) :
    SendOutcome :=
  let textToSend := jsTrim newMessage
  if !hasDb || userId == "" || textToSend == "" || isSending then
    { accepted := false, orchestrationResult := none, destructureError := none
    , responderInvocations := 0, finalResponse := none, batchRecords := []
    , commitCalls := 0, errorAfter := none, isSendingAfter := isSending }
  else
    let userMessageData : MessageRecord :=
      { text := textToSend, userId := userId, type := some (.str "user_query")
      , isSystem := none, userDisplayId := jsSubstring0 userId 8 }
    let orchRun := (callGeminiOrchestrator textToSend orchEnv).2
    let orchestrationResult := orchestrationResultOf orchRun
    match destructureOrch orchestrationResult with
    | .error m =>
      { accepted := true, orchestrationResult := some orchestrationResult
      , destructureError := some m, responderInvocations := 0
      , finalResponse := none, batchRecords := [], commitCalls := 0
      , errorAfter := none, isSendingAfter := true }
    | .ok (intent, tool_triggered, querySummary) =>
      let fr := branchResponse textToSend intent tool_triggered querySummary respEnv
      let aiResponseData : MessageRecord :=
        { text := fr.1, userId := "AIos_gNode", type := intent
        , isSystem := some true, userDisplayId := "AIos Core" }
      { accepted := true, orchestrationResult := some orchestrationResult
      , destructureError := none, responderInvocations := fr.2
      , finalResponse := some fr.1
      , batchRecords := [userMessageData, aiResponseData]
      , commitCalls := 1
      , errorAfter :=
          match commitResult with
          | .ok _ => none
          | .error m => some ("Failed to send message: " ++ m)
      , isSendingAfter := false }

/-! ## Helper lemmas -/

/-- Decimal digit characters produced by `Nat.digitChar` below base 10. -/
lemma digitChar_isDigit {m : Nat} (h : m < 10) : (Nat.digitChar m).isDigit = true := by
  interval_cases m <;> decide

/-- Every character `Nat.toDigitsCore` emits in base 10 is a digit. -/
lemma toDigitsCore_digits :
    ∀ (fuel n : Nat) (acc : List Char), (∀ c ∈ acc, c.isDigit = true) →
      ∀ c ∈ Nat.toDigitsCore 10 fuel n acc, c.isDigit = true := by
  intro fuel
  induction fuel with
  | zero =>
    intro n acc hacc c hc
    exact hacc c hc
  | succ f ih =>
    intro n acc hacc c hc
    simp only [Nat.toDigitsCore] at hc
    split at hc
    · rcases List.mem_cons.mp hc with h | h
      · subst h; exact digitChar_isDigit (Nat.mod_lt _ (by norm_num))
      · exact hacc c h
    · refine ih _ _ ?_ c hc
      intro d hd
      rcases List.mem_cons.mp hd with h | h
      · subst h; exact digitChar_isDigit (Nat.mod_lt _ (by norm_num))
      · exact hacc d h

/-- Every character of the decimal rendering of a natural number is a
digit. -/
lemma repr_data_digits (n : Nat) : ∀ c ∈ (Nat.repr n).data, c.isDigit = true := by
  intro c hc
  exact toDigitsCore_digits (n + 1) n [] (by intro d hd; cases hd) c hc

/-- A substring hit forces every character of the pattern into the text. -/
lemma charsIncl_subset {pat l : List Char} (h : charsIncl pat l = true) :
    ∀ c ∈ pat, c ∈ l := by
  induction l with
  | nil =>
    intro c hc
    simp only [charsIncl, List.isEmpty_iff] at h
    subst h
    cases hc
  | cons a rest ih =>
    intro c hc
    simp only [charsIncl, Bool.or_eq_true] at h
    rcases h with h | h
    · exact (List.isPrefixOf_iff_prefix.mp h).sublist.subset hc
    · exact List.mem_cons_of_mem a (ih h c hc)

/-- A message containing neither `F` nor `N` matches neither
`'Failed to fetch'` nor `'NetworkError'`. -/
lemma isNetworkErrMsg_eq_false {m : String}
    (hF : 'F' ∉ m.data) (hN : 'N' ∉ m.data) : isNetworkErrMsg m = false := by
  unfold isNetworkErrMsg strIncludes
  rw [Bool.or_eq_false_iff]
  constructor
  · rcases Bool.eq_false_or_eq_true (charsIncl "Failed to fetch".data m.data) with h | h
    · exact absurd (charsIncl_subset h 'F' (by decide)) hF
    · exact h
  · rcases Bool.eq_false_or_eq_true (charsIncl "NetworkError".data m.data) with h | h
    · exact absurd (charsIncl_subset h 'N' (by decide)) hN
    · exact h

/-- The orchestrator's terminal-status message is never retryable,
whatever the status. -/
lemma orch_terminal_msg_not_network (s : Nat) :
    isNetworkErrMsg ("Orchestrator API returned status " ++ toString s) = false := by
  apply isNetworkErrMsg_eq_false
  · intro hmem
    rw [String.data_append] at hmem
    rcases List.mem_append.mp hmem with h | h
    · revert h; decide
    · have := repr_data_digits s 'F' h
      simp at this
  · intro hmem
    rw [String.data_append] at hmem
    rcases List.mem_append.mp hmem with h | h
    · revert h; decide
    · have := repr_data_digits s 'N' h
      simp at this

/-- Inside its fuel budget (`i + fuel = MAX_RETRIES`), the orchestrator
loop never falls through to the trailing fallback: every iteration
returns, throws, or recurses with the invariant preserved. -/
lemma orchGo_not_fellThrough (env : Nat → FetchStep) :
    ∀ fuel i delay, i + fuel = MAX_RETRIES → 0 < fuel →
      (orchGo env fuel i delay).fellThrough = false := by
  have hM : MAX_RETRIES = 3 := rfl
  intro fuel
  induction fuel with
  | zero => intro i delay h h0; omega
  | succ f ih =>
    intro i delay hsum h0
    have hrec : ∀ d, i < MAX_RETRIES - 1 → (orchGo env f (i + 1) d).fellThrough = false := by
      intro d hi
      exact ih (i + 1) d (by omega) (by omega)
    cases henv : env i with
    | success result parse =>
      simp only [orchGo, henv]
      cases hct : chainText result with
      | error m =>
        by_cases hc : i < MAX_RETRIES - 1 ∧ isNetworkErrMsg m
        · simp only [if_pos hc]
          exact hrec _ hc.1
        · simp only [if_neg hc]
      | ok jsonText =>
        by_cases ht : jsTruthyOpt jsonText = true
        · simp only [if_pos ht]
          cases parse with
          | ok v => rfl
          | err m =>
            by_cases hc : i < MAX_RETRIES - 1 ∧ isNetworkErrMsg m
            · simp only [if_pos hc]
              exact hrec _ hc.1
            · simp only [if_neg hc]
        · simp only [Bool.not_eq_true] at ht
          simp only [ht, Bool.false_eq_true, if_false]
    | httpError s =>
      simp only [orchGo, henv]
      by_cases hs : s = 429 ∨ 500 ≤ s
      · simp only [if_pos hs]
        by_cases hi : i < MAX_RETRIES - 1
        · simp only [if_pos hi]
          exact hrec _ hi
        · simp only [if_neg hi]
          have hc : ¬ (i < MAX_RETRIES - 1 ∧ isNetworkErrMsg ("Orchestrator API returned status " ++ toString s ++ " after " ++ toString MAX_RETRIES ++ " attempts.")) := by
            intro h; exact hi h.1
          simp only [if_neg hc]
      · simp only [if_neg hs]
        by_cases hc : i < MAX_RETRIES - 1 ∧ isNetworkErrMsg ("Orchestrator API returned status " ++ toString s)
        · simp only [if_pos hc]
          exact hrec _ hc.1
        · simp only [if_neg hc]
    | netError m =>
      simp only [orchGo, henv]
      by_cases hc : i < MAX_RETRIES - 1 ∧ isNetworkErrMsg m
      · simp only [if_pos hc]
        exact hrec _ hc.1
      · simp only [if_neg hc]

/-- Same fact for the responder loop. -/
lemma respGo_not_fellThrough (env : Nat → FetchStep) :
    ∀ fuel i delay, i + fuel = MAX_RETRIES → 0 < fuel →
      (respGo env fuel i delay).fellThrough = false := by
  have hM : MAX_RETRIES = 3 := rfl
  intro fuel
  induction fuel with
  | zero => intro i delay h h0; omega
  | succ f ih =>
    intro i delay hsum h0
    have hrec : ∀ d, i < MAX_RETRIES - 1 → (respGo env f (i + 1) d).fellThrough = false := by
      intro d hi
      exact ih (i + 1) d (by omega) (by omega)
    cases henv : env i with
    | success result parse =>
      simp only [respGo, henv]
      cases hpb : processRespBody result with
      | ok s => rfl
      | error m =>
        by_cases hc : i < MAX_RETRIES - 1 ∧ isNetworkErrMsg m
        · simp only [if_pos hc]
          exact hrec _ hc.1
        · simp only [if_neg hc]
    | httpError s =>
      simp only [respGo, henv]
      by_cases hs : s = 429 ∨ 500 ≤ s
      · simp only [if_pos hs]
        by_cases hi : i < MAX_RETRIES - 1
        · simp only [if_pos hi]
          exact hrec _ hi
        · simp only [if_neg hi]
          have hc : ¬ (i < MAX_RETRIES - 1 ∧ isNetworkErrMsg ("Response Generator API returned status " ++ toString s ++ " after " ++ toString MAX_RETRIES ++ " attempts.")) := by
            intro h; exact hi h.1
          simp only [if_neg hc]
      · simp only [if_neg hs]
        by_cases hc : i < MAX_RETRIES - 1 ∧ isNetworkErrMsg ("Response Generator API returned status " ++ toString s)
        · simp only [if_pos hc]
          exact hrec _ hc.1
        · simp only [if_neg hc]
    | netError m =>
      simp only [respGo, henv]
      by_cases hc : i < MAX_RETRIES - 1 ∧ isNetworkErrMsg m
      · simp only [if_pos hc]
        exact hrec _ hc.1
      · simp only [if_neg hc]

/-- Everything the orchestrator loop can return normally: the
no-content synthesized error object, or exactly a value produced by the
external `JSON.parse` on some attempt — no other validation happens. -/
lemma orchGo_ret_char (env : Nat → FetchStep) :
    ∀ fuel i delay v, i + fuel = MAX_RETRIES → 0 < fuel →
      (orchGo env fuel i delay).result = .ret v →
      v = orchNoContent ∨ ∃ j r, env j = .success r (.ok v) := by
  have hM : MAX_RETRIES = 3 := rfl
  intro fuel
  induction fuel with
  | zero => intro i delay v h h0; omega
  | succ f ih =>
    intro i delay v hsum h0
    have hrec : ∀ d, i < MAX_RETRIES - 1 →
        (orchGo env f (i + 1) d).result = .ret v →
        v = orchNoContent ∨ ∃ j r, env j = .success r (.ok v) := by
      intro d hi h
      exact ih (i + 1) d v (by omega) (by omega) h
    cases henv : env i with
    | success result parse =>
      simp only [orchGo, henv]
      cases hct : chainText result with
      | error m =>
        by_cases hc : i < MAX_RETRIES - 1 ∧ isNetworkErrMsg m
        · simp only [if_pos hc]
          exact hrec _ hc.1
        · simp only [if_neg hc]
          intro hret
          cases hret
      | ok jsonText =>
        by_cases ht : jsTruthyOpt jsonText = true
        · simp only [if_pos ht]
          cases parse with
          | ok w =>
            intro hret
            simp only [CallResult.ret.injEq] at hret
            subst hret
            exact Or.inr ⟨i, result, henv⟩
          | err m =>
            by_cases hc : i < MAX_RETRIES - 1 ∧ isNetworkErrMsg m
            · simp only [if_pos hc]
              exact hrec _ hc.1
            · simp only [if_neg hc]
              intro hret
              cases hret
        · simp only [if_neg ht]
          intro hret
          simp only [CallResult.ret.injEq] at hret
          exact Or.inl hret.symm
    | httpError s =>
      simp only [orchGo, henv]
      by_cases hs : s = 429 ∨ 500 ≤ s
      · simp only [if_pos hs]
        by_cases hi : i < MAX_RETRIES - 1
        · simp only [if_pos hi]
          exact hrec _ hi
        · simp only [if_neg hi]
          have hc : ¬ (i < MAX_RETRIES - 1 ∧ isNetworkErrMsg ("Orchestrator API returned status " ++ toString s ++ " after " ++ toString MAX_RETRIES ++ " attempts.")) := by
            intro h; exact hi h.1
          simp only [if_neg hc]
          intro hret
          cases hret
      · simp only [if_neg hs]
        by_cases hc : i < MAX_RETRIES - 1 ∧ isNetworkErrMsg ("Orchestrator API returned status " ++ toString s)
        · simp only [if_pos hc]
          exact hrec _ hc.1
        · simp only [if_neg hc]
          intro hret
          cases hret
    | netError m =>
      simp only [orchGo, henv]
      by_cases hc : i < MAX_RETRIES - 1 ∧ isNetworkErrMsg m
      · simp only [if_pos hc]
        exact hrec _ hc.1
      · simp only [if_neg hc]
        intro hret
        cases hret

/-- Strict string equality unfolded to a propositional equation. -/
lemma jsIsStr_iff {v : Option Json} {s : String} :
    jsIsStr v s = true ↔ v = some (Json.str s) := by
  cases v with
  | none => simp [jsIsStr]
  | some w => cases w <;> simp [jsIsStr]

/-- The terminal-status message is a nonempty string. -/
lemma orch_terminal_msg_ne_empty (s : Nat) :
    (("Orchestrator API returned status " ++ toString s) == "") = false := by
  rw [beq_eq_false_iff_ne]
  intro h
  have hdata : ("Orchestrator API returned status " ++ toString s).data = [] := by
    rw [h]
  rw [String.data_append] at hdata
  rcases List.append_eq_nil.mp hdata with ⟨h1, _⟩
  exact absurd h1 (by decide)

/-! ## The claims -/

/-- C10: the post-loop timeout fallbacks of both call functions are
unreachable — for every sequence of HTTP outcomes each retry loop
returns or throws inside its three iterations, and control never
reaches the trailing fallback return. -/
theorem claim_C10_loop_fallbacks_unreachable
    (userQuery : String) (intent : Option Json) (orchEnv respEnv : Nat → FetchStep) :
    ((callGeminiOrchestrator userQuery orchEnv).2).fellThrough = false ∧
    ((callGeminiResponseGenerator userQuery intent respEnv).2).fellThrough = false :=
  ⟨orchGo_not_fellThrough orchEnv MAX_RETRIES 0 1000 rfl (by decide),
   respGo_not_fellThrough respEnv MAX_RETRIES 0 1000 rfl (by decide)⟩

/-- C7: a first attempt answered by a terminal HTTP status (not 429 and
below 500) makes the classifier throw at once: one fetch, no backoff
sleep, and the terminal error message surfaced to the caller. -/
theorem claim_C7_terminal_status_immediate
    (userQuery : String) (env : Nat → FetchStep) (s : Nat)
    (hfirst : env 0 = FetchStep.httpError s) (h429 : s ≠ 429) (h500 : s < 500) :
    (callGeminiOrchestrator userQuery env).2 =
      { result := .thrown ("Orchestrator API returned status " ++ toString s)
      , fetches := 1, sleeps := [], fellThrough := false } := by
  have hs : ¬ (s = 429 ∨ 500 ≤ s) := by omega
  have hc : ¬ (0 < MAX_RETRIES - 1 ∧
      isNetworkErrMsg ("Orchestrator API returned status " ++ toString s) = true) := by
    intro h
    rw [orch_terminal_msg_not_network s] at h
    exact absurd h.2 (by simp)
  show orchGo env MAX_RETRIES 0 1000 = _
  simp only [MAX_RETRIES]
  simp only [orchGo, hfirst, if_neg hs, if_neg hc, orch_terminal_msg_ne_empty s,
    Bool.false_eq_true, if_false]

/-- Witness for C7 at status 400. -/
theorem claim_C7_witness :
    (callGeminiOrchestrator "hello" (fun _ => FetchStep.httpError 400)).2 =
      { result := .thrown ("Orchestrator API returned status " ++ toString 400)
      , fetches := 1, sleeps := [], fellThrough := false } :=
  claim_C7_terminal_status_immediate "hello" (fun _ => FetchStep.httpError 400) 400
    rfl (by decide) (by decide)

/-- C2 (amended): whenever the classifier call throws past its boundary,
the sequencer's catch substitutes the synthesized API-Failure
error-intent object, so no raw exception survives the classification
stage of `handleSend`. -/
theorem claim_C2_sequencer_absorbs_classifier_throw
    (userQuery : String) (env : Nat → FetchStep) (m : String)
    (hthrown : (callGeminiOrchestrator userQuery env).2.result = CallResult.thrown m) :
    jsField (orchestrationResultOf (callGeminiOrchestrator userQuery env).2) "intent"
      = some (Json.str "error") ∧
    jsField (orchestrationResultOf (callGeminiOrchestrator userQuery env).2) "tool_triggered"
      = some (Json.str "API Failure") ∧
    jsField (orchestrationResultOf (callGeminiOrchestrator userQuery env).2) "arguments"
      = some (Json.obj [("query", Json.str m)]) := by
  unfold orchestrationResultOf
  rw [hthrown]
  exact ⟨rfl, rfl, rfl⟩

/-- Witness for C2: three 503 answers exhaust the retries, the call
throws, and the sequencer's substitute carries the error intent. -/
theorem claim_C2_witness :
    jsField (orchestrationResultOf
        (callGeminiOrchestrator "hello" (fun _ => FetchStep.httpError 503)).2) "intent"
      = some (Json.str "error") ∧
    jsField (orchestrationResultOf
        (callGeminiOrchestrator "hello" (fun _ => FetchStep.httpError 503)).2) "tool_triggered"
      = some (Json.str "API Failure") ∧
    jsField (orchestrationResultOf
        (callGeminiOrchestrator "hello" (fun _ => FetchStep.httpError 503)).2) "arguments"
      = some (Json.obj [("query",
          Json.str "Orchestrator API returned status 503 after 3 attempts.")]) :=
  claim_C2_sequencer_absorbs_classifier_throw "hello" (fun _ => FetchStep.httpError 503)
    "Orchestrator API returned status 503 after 3 attempts." rfl

/-- Counterexample to C2 as stated: with 503 on attempts 1–3 the
classifier call itself does not return a synthesized error-intent
`OrchestrationResult` — it throws a raw error past its boundary. -/
theorem claim_C2_counterexample :
    (callGeminiOrchestrator "hello" (fun _ => FetchStep.httpError 503)).2.result =
      CallResult.thrown "Orchestrator API returned status 503 after 3 attempts." := rfl

/-- C3 (amended): a value the classifier call returns normally is either
the synthesized no-content error object (whose intent is `error`) or
exactly the value the external `JSON.parse` produced on some attempt,
propagated without structural validation. -/
theorem claim_C3_returned_values
    (userQuery : String) (env : Nat → FetchStep) (v : Json)
    (hret : (callGeminiOrchestrator userQuery env).2.result = CallResult.ret v) :
    (v = orchNoContent ∨ ∃ j r, env j = FetchStep.success r (ParseOutcome.ok v)) ∧
    jsField orchNoContent "intent" = some (Json.str "error") :=
  ⟨orchGo_ret_char env MAX_RETRIES 0 1000 v rfl (by decide) hret, rfl⟩

/-- Environment whose ok-response has no extractable text. -/
def witEnvC3 : Nat → FetchStep :=
  fun _ => FetchStep.success (Json.obj []) (ParseOutcome.ok Json.null)

/-- Witness for C3: an ok-response without structured content returns
the synthesized no-content object. -/
theorem claim_C3_witness :
    (orchNoContent = orchNoContent ∨
      ∃ j r, witEnvC3 j = FetchStep.success r (ParseOutcome.ok orchNoContent)) ∧
    jsField orchNoContent "intent" = some (Json.str "error") :=
  claim_C3_returned_values "q" witEnvC3 orchNoContent rfl

/-- A structurally invalid model reply (intent outside the enumeration)
as `JSON.parse` would deliver it. -/
def bananaResult : Json :=
  Json.obj
    [ ("intent", .str "banana")
    , ("tool_triggered", .str "X")
    , ("arguments", Json.obj [("query", .str "q")]) ]

/-- Environment whose ok-response carries a parseable but structurally
invalid model reply. -/
def cexEnvC3 : Nat → FetchStep :=
  fun _ => FetchStep.success
    (Json.obj [("candidates", Json.arr [Json.obj [("content", Json.obj
      [("parts", Json.arr [Json.obj [("text",
        Json.str "\x7b\x22intent\x22:\x22banana\x22,\x22tool_triggered\x22:\x22X\x22,\x22arguments\x22:\x7b\x22query\x22:\x22q\x22\x7d\x7d")]])])]])])
    (ParseOutcome.ok bananaResult)

/-- Counterexample to C3 as stated: a parseable reply whose intent is
outside the enumeration is returned as-is, not forced to `error`. -/
theorem claim_C3_counterexample :
    (callGeminiOrchestrator "q" cexEnvC3).2.result = CallResult.ret bananaResult ∧
    jsField bananaResult "intent" = some (Json.str "banana") ∧
    "banana" ∉ (["calendar_tool", "communication_tool", "image_generation",
      "gemini_response", "knowledge_response", "general_chat", "error"] : List String) :=
  ⟨rfl, rfl, by decide⟩

/-- C5: the external-knowledge grounding capability (the `tools` field
carrying the google_search tool) is present in the responder request iff
the classified intent is the grounded one — source tag
`gemini_response`, which the spec names `knowledge_response`; the
grounded system instruction is selected under exactly the same
condition. -/
theorem claim_C5_grounding_iff_knowledge_intent
    (userQuery : String) (intent : Option Json) (env : Nat → FetchStep) :
    ((callGeminiResponseGenerator userQuery intent env).1.tools.isSome = true ↔
      intent = some (Json.str "gemini_response")) ∧
    ((callGeminiResponseGenerator userQuery intent env).1.tools = none ∨
      (callGeminiResponseGenerator userQuery intent env).1.tools =
        some (Json.arr [Json.obj [("google_search", Json.obj [])]])) ∧
    ((callGeminiResponseGenerator userQuery intent env).1.systemInstructionText =
        groundedSystemPrompt ↔ intent = some (Json.str "gemini_response")) := by
  have hne : plainSystemPrompt ≠ groundedSystemPrompt := by decide
  by_cases h : jsIsStr intent "gemini_response" = true
  · have he := jsIsStr_iff.mp h
    simp [callGeminiResponseGenerator, respPayload, h, he, jsIsStr]
  · have hni : ¬ intent = some (Json.str "gemini_response") := fun he => h (jsIsStr_iff.mpr he)
    rw [Bool.not_eq_true] at h
    simp [callGeminiResponseGenerator, respPayload, h, hni, hne]

/-- Grounding attribution with a title, as in the spec's example. -/
def attrTitle (s : String) : Json := Json.obj [("web", Json.obj [("title", Json.str s)])]

/-- Grounding attribution with only a raw URI. -/
def attrUri (s : String) : Json := Json.obj [("web", Json.obj [("uri", Json.str s)])]

/-- A responder ok-envelope: body text plus optional grounding
metadata under `candidates[0]`. -/
def okEnvelope (t : Json) (gm : Option Json) : Json :=
  Json.obj [("candidates", Json.arr [Json.obj
    ([("content", Json.obj [("parts", Json.arr [Json.obj [("text", t)]])])] ++
      (match gm with
       | some g => [("groundingMetadata", g)]
       | none => []))])]

/-- Grounding metadata holding the given attribution list. -/
def gmetaOf (attrs : List Json) : Json :=
  Json.obj [("groundingAttributions", Json.arr attrs)]

/-- The spec's citation example environment:
attributions `[{title:A},{uri:http://b},{title:C},{title:D}]`. -/
def exEnvC6 : Nat → FetchStep :=
  fun _ => FetchStep.success
    (okEnvelope (.str "T")
      (some (gmetaOf [attrTitle "A", attrUri "http://b", attrTitle "C", attrTitle "D"])))
    (ParseOutcome.ok Json.null)

/-- C6 (amended): the responder returns the body text with a trailing
Sources line of at most three references, first three truthy ones in
original order, title preferred over uri, with no deduplication; absent
metadata leaves the text unmodified; absent text yields the fixed
diagnostic. -/
theorem claim_C6_citation_composition :
    ((callGeminiResponseGenerator "q" (some (Json.str "gemini_response")) exEnvC6).2.result =
      CallResult.ret "T\n\n**Sources:** A, http://b, C") ∧
    (∀ result t, chainText result = Except.ok (some t) → jsTruthy t = true →
      chainGrounding result = Except.ok none →
      processRespBody result = Except.ok (jsToString t)) ∧
    (∀ result, chainText result = Except.ok none →
      processRespBody result =
        Except.ok "Gemini failed to generate a response (no text returned).") ∧
    (∀ picked, (sourcesOf picked).length ≤ 3) := by
  refine ⟨rfl, ?_, ?_, ?_⟩
  · intro result t h1 h2 h3
    simp [processRespBody, computeCitations, h1, h2, h3, jsTruthyOpt]
  · intro result h1
    simp [processRespBody, h1]
  · intro picked
    simp only [sourcesOf]
    exact List.length_take_le 3 _

/-- Duplicate-title attributions for the C6 counterexample. -/
def cexEnvC6 : Nat → FetchStep :=
  fun _ => FetchStep.success
    (okEnvelope (.str "T") (some (gmetaOf [attrTitle "A", attrTitle "A", attrTitle "B"])))
    (ParseOutcome.ok Json.null)

/-- Counterexample to C6 as stated: the source appends the first three
truthy references without deduplication, so a repeated title appears
twice in the Sources line. -/
theorem claim_C6_counterexample :
    (callGeminiResponseGenerator "q" (some (Json.str "gemini_response")) cexEnvC6).2.result =
      CallResult.ret "T\n\n**Sources:** A, A, B" ∧
    (callGeminiResponseGenerator "q" (some (Json.str "gemini_response")) cexEnvC6).2.result ≠
      CallResult.ret "T\n\n**Sources:** A, B" :=
  ⟨rfl, by decide⟩

/-- Full unfolding of an accepted `handleSend` run whose classifier
result destructures: everything the sequencer produces, in one record. -/
lemma handleSend_ok_spec
    (hasDb : Bool) (userId newMessage : String) (isSending : Bool)
    (orchEnv respEnv : Nat → FetchStep) (commitResult : Except String Unit)
    (hacc : (handleSend hasDb userId newMessage isSending orchEnv respEnv commitResult).accepted = true)
    (hde : (handleSend hasDb userId newMessage isSending orchEnv respEnv commitResult).destructureError = none) :
    ∃ i t q,
      destructureOrch (orchestrationResultOf
        (callGeminiOrchestrator (jsTrim newMessage) orchEnv).2) = Except.ok (i, t, q) ∧
      handleSend hasDb userId newMessage isSending orchEnv respEnv commitResult =
        { accepted := true
        , orchestrationResult := some (orchestrationResultOf
            (callGeminiOrchestrator (jsTrim newMessage) orchEnv).2)
        , destructureError := none
        , responderInvocations := (branchResponse (jsTrim newMessage) i t q respEnv).2
        , finalResponse := some (branchResponse (jsTrim newMessage) i t q respEnv).1
        , batchRecords :=
            [ { text := jsTrim newMessage, userId := userId
              , type := some (.str "user_query"), isSystem := none
              , userDisplayId := jsSubstring0 userId 8 }
            , { text := (branchResponse (jsTrim newMessage) i t q respEnv).1
              , userId := "AIos_gNode", type := i, isSystem := some true
              , userDisplayId := "AIos Core" } ]
        , commitCalls := 1
        , errorAfter :=
            match commitResult with
            | .ok _ => none
            | .error m => some ("Failed to send message: " ++ m)
        , isSendingAfter := false } := by
  by_cases hg : (!hasDb || userId == "" || jsTrim newMessage == "" || isSending) = true
  · simp only [handleSend, if_pos hg] at hacc
    cases hacc
  · rw [Bool.not_eq_true] at hg
    cases hd : destructureOrch (orchestrationResultOf
        (callGeminiOrchestrator (jsTrim newMessage) orchEnv).2) with
    | error m =>
      simp only [handleSend, hg, Bool.false_eq_true, if_false, hd] at hde
      cases hde
    | ok trip =>
      obtain ⟨i, t, q⟩ := trip
      refine ⟨i, t, q, rfl, ?_⟩
      simp only [handleSend, hg, Bool.false_eq_true, if_false, hd]
      cases commitResult <;> rfl

/-- C1 (amended): an accepted submission whose classifier result
destructures produces exactly one batch commit holding exactly two
records — the `user_query` record and the system record carrying the
final response — whatever the LLM stages and the commit did. -/
theorem claim_C1_two_record_atomic_batch
    (hasDb : Bool) (userId newMessage : String) (isSending : Bool)
    (orchEnv respEnv : Nat → FetchStep) (commitResult : Except String Unit)
    (out : SendOutcome)
    (hout : out = handleSend hasDb userId newMessage isSending orchEnv respEnv commitResult)
    (hacc : out.accepted = true) (hde : out.destructureError = none) :
    out.commitCalls = 1 ∧
    ∃ u a, out.batchRecords = [u, a] ∧
      u.type = some (Json.str "user_query") ∧ u.isSystem = none ∧
      u.text = jsTrim newMessage ∧ u.userId = userId ∧
      a.isSystem = some true ∧ a.userId = "AIos_gNode" ∧
      some a.text = out.finalResponse := by
  subst hout
  obtain ⟨i, t, q, -, hrec⟩ := handleSend_ok_spec hasDb userId newMessage isSending
    orchEnv respEnv commitResult hacc hde
  rw [hrec]
  exact ⟨rfl, _, _, rfl, rfl, rfl, rfl, rfl, rfl, rfl, rfl⟩

/-- A classifier environment answering a well-formed `general_chat`
reply. -/
def chatOrchEnv : Nat → FetchStep :=
  fun _ => FetchStep.success (okEnvelope (.str "ok") none)
    (ParseOutcome.ok (Json.obj
      [ ("intent", .str "general_chat")
      , ("tool_triggered", .str "Gemini Responder")
      , ("arguments", Json.obj [("query", .str "hi there")]) ]))

/-- A responder environment answering plain text. -/
def plainRespEnv : Nat → FetchStep :=
  fun _ => FetchStep.success (okEnvelope (.str "hello!") none) (ParseOutcome.ok Json.null)

/-- Witness for C1 on a concrete accepted submission. -/
theorem claim_C1_witness :
    (handleSend true "alice" "hi" false chatOrchEnv plainRespEnv (.ok ())).commitCalls = 1 ∧
    ∃ u a, (handleSend true "alice" "hi" false chatOrchEnv plainRespEnv (.ok ())).batchRecords = [u, a] ∧
      u.type = some (Json.str "user_query") ∧ u.isSystem = none ∧
      u.text = jsTrim "hi" ∧ u.userId = "alice" ∧
      a.isSystem = some true ∧ a.userId = "AIos_gNode" ∧
      some a.text = (handleSend true "alice" "hi" false chatOrchEnv plainRespEnv (.ok ())).finalResponse :=
  claim_C1_two_record_atomic_batch true "alice" "hi" false chatOrchEnv plainRespEnv (.ok ())
    (handleSend true "alice" "hi" false chatOrchEnv plainRespEnv (.ok ())) rfl rfl rfl

/-- A classifier environment whose parsed reply lacks the `arguments`
field. -/
def cexEnvC1 : Nat → FetchStep :=
  fun _ => FetchStep.success (okEnvelope (.str "ok") none)
    (ParseOutcome.ok (Json.obj
      [("intent", .str "general_chat"), ("tool_triggered", .str "X")]))

/-- Counterexample to C1 as stated: a submission that enters the send
pipeline but whose classifier reply lacks `arguments` appends no record
at all — the destructuring throws before the batch exists. -/
theorem claim_C1_counterexample :
    (handleSend true "alice" "hi" false cexEnvC1 plainRespEnv (.ok ())).accepted = true ∧
    (handleSend true "alice" "hi" false cexEnvC1 plainRespEnv (.ok ())).batchRecords = [] ∧
    (handleSend true "alice" "hi" false cexEnvC1 plainRespEnv (.ok ())).commitCalls = 0 :=
  ⟨rfl, rfl, rfl⟩

/-- C9 (amended): the in-flight flag is released for every accepted
submission whose classifier result destructures — success, append
failure and every caught LLM failure included. -/
theorem claim_C9_flag_released
    (hasDb : Bool) (userId newMessage : String) (isSending : Bool)
    (orchEnv respEnv : Nat → FetchStep) (commitResult : Except String Unit)
    (out : SendOutcome)
    (hout : out = handleSend hasDb userId newMessage isSending orchEnv respEnv commitResult)
    (hacc : out.accepted = true) (hde : out.destructureError = none) :
    out.isSendingAfter = false := by
  subst hout
  obtain ⟨i, t, q, -, hrec⟩ := handleSend_ok_spec hasDb userId newMessage isSending
    orchEnv respEnv commitResult hacc hde
  rw [hrec]

/-- Witness for C9: the flag is released even when the batch commit
fails. -/
theorem claim_C9_witness :
    (handleSend true "bob" "hey" false chatOrchEnv plainRespEnv
      (.error "permission denied")).isSendingAfter = false :=
  claim_C9_flag_released true "bob" "hey" false chatOrchEnv plainRespEnv
    (.error "permission denied")
    (handleSend true "bob" "hey" false chatOrchEnv plainRespEnv (.error "permission denied"))
    rfl rfl rfl

/-- A second no-`arguments` classifier environment. -/
def cexEnvC9 : Nat → FetchStep :=
  fun _ => FetchStep.success (okEnvelope (.str "ok") none)
    (ParseOutcome.ok (Json.obj
      [("intent", .str "knowledge"), ("tool_triggered", .str "Y")]))

/-- Counterexample to C9 as stated: an accepted submission whose
classifier result lacks `arguments` leaves the in-flight flag set —
the TypeError escapes before any release. -/
theorem claim_C9_counterexample :
    (handleSend true "alice" "hi" false cexEnvC9 plainRespEnv (.ok ())).accepted = true ∧
    (handleSend true "alice" "hi" false cexEnvC9 plainRespEnv (.ok ())).isSendingAfter = true :=
  ⟨rfl, rfl⟩

/-- If the classifier result in use destructures, `handleSend` records
no destructuring TypeError. -/
lemma handleSend_destructure_none
    (hasDb : Bool) (userId newMessage : String) (isSending : Bool)
    (orchEnv respEnv : Nat → FetchStep) (commitResult : Except String Unit)
    (v : Json) (i t q : Option Json)
    (hor : (handleSend hasDb userId newMessage isSending orchEnv respEnv commitResult).orchestrationResult = some v)
    (hd : destructureOrch v = Except.ok (i, t, q)) :
    (handleSend hasDb userId newMessage isSending orchEnv respEnv commitResult).destructureError = none := by
  by_cases hg : (!hasDb || userId == "" || jsTrim newMessage == "" || isSending) = true
  · simp only [handleSend, if_pos hg] at hor
    cases hor
  · rw [Bool.not_eq_true] at hg
    cases hd2 : destructureOrch (orchestrationResultOf
        (callGeminiOrchestrator (jsTrim newMessage) orchEnv).2) with
    | error m =>
      simp only [handleSend, hg, Bool.false_eq_true, if_false, hd2] at hor
      injection hor with hv
      rw [← hv, hd2] at hd
      cases hd
    | ok trip =>
      obtain ⟨i2, t2, q2⟩ := trip
      simp only [handleSend, hg, Bool.false_eq_true, if_false, hd2]

/-- C4: the responder call runs exactly once for the conversational
intents (`general_chat`, and `gemini_response` — the spec's
`knowledge_response`), and never for the three tool intents, which get
the deterministic mock description referencing the tool label instead. -/
theorem claim_C4_responder_dispatch
    (hasDb : Bool) (userId newMessage : String) (isSending : Bool)
    (orchEnv respEnv : Nat → FetchStep) (commitResult : Except String Unit)
    (out : SendOutcome) (v : Json) (i t q : Option Json)
    (hout : out = handleSend hasDb userId newMessage isSending orchEnv respEnv commitResult)
    (hacc : out.accepted = true)
    (hor : out.orchestrationResult = some v)
    (hd : destructureOrch v = Except.ok (i, t, q)) :
    (out.responderInvocations =
      if (jsIsStr i "general_chat" || jsIsStr i "gemini_response") = true then 1 else 0) ∧
    ((i = some (Json.str "calendar_tool") ∨ i = some (Json.str "communication_tool") ∨
        i = some (Json.str "image_generation")) →
      out.responderInvocations = 0 ∧
      out.finalResponse = some (orchestrationSummary i t q ++
        "\n\n**Tool Execution Mock:** The UI would now transition to the generated application form for " ++
        jsToStr t ++ ".")) := by
  subst hout
  have hde := handleSend_destructure_none hasDb userId newMessage isSending
    orchEnv respEnv commitResult v i t q hor hd
  obtain ⟨i2, t2, q2, hd2, hrec⟩ := handleSend_ok_spec hasDb userId newMessage isSending
    orchEnv respEnv commitResult hacc hde
  have hv : v = orchestrationResultOf (callGeminiOrchestrator (jsTrim newMessage) orchEnv).2 := by
    rw [hrec] at hor
    injection hor with h
    exact h.symm
  rw [hv, hd2] at hd
  injection hd with htrip
  rw [Prod.mk.injEq, Prod.mk.injEq] at htrip
  obtain ⟨hi2, ht2, hq2⟩ := htrip
  rw [hi2, ht2, hq2] at hrec
  rw [hrec]
  constructor
  · show (branchResponse (jsTrim newMessage) i t q respEnv).2 = _
    unfold branchResponse
    by_cases he : jsIsStr i "error" = true
    · have hie := jsIsStr_iff.mp he
      subst hie
      simp [jsIsStr]
    · rw [Bool.not_eq_true] at he
      by_cases hc : (jsIsStr i "general_chat" || jsIsStr i "gemini_response") = true
      · simp only [he, Bool.false_eq_true, if_false, hc, if_true]
        cases (callGeminiResponseGenerator (jsTrim newMessage) i respEnv).2.result <;> rfl
      · rw [Bool.not_eq_true] at hc
        simp only [he, Bool.false_eq_true, if_false, hc]
  · intro hcase
    have hresp : (jsIsStr i "error" = false) ∧
        ((jsIsStr i "general_chat" || jsIsStr i "gemini_response") = false) := by
      rcases hcase with h | h | h <;> subst h <;> exact ⟨rfl, rfl⟩
    show (branchResponse (jsTrim newMessage) i t q respEnv).2 = 0 ∧
      some (branchResponse (jsTrim newMessage) i t q respEnv).1 = _
    unfold branchResponse
    simp only [hresp.1, hresp.2, Bool.false_eq_true, if_false]
    trivial

/-- A classifier environment answering a well-formed `calendar_tool`
reply (the spec's end-to-end scenario). -/
def toolOrchEnv : Nat → FetchStep :=
  fun _ => FetchStep.success (okEnvelope (.str "ok") none)
    (ParseOutcome.ok (Json.obj
      [ ("intent", .str "calendar_tool")
      , ("tool_triggered", .str "Calendar API")
      , ("arguments", Json.obj [("query", .str "lunch Friday")]) ]))

/-- Witness for C4 on the calendar-tool scenario: no responder call and
the mock description. -/
theorem claim_C4_witness :
    ((handleSend true "alice" "Schedule lunch Friday" false toolOrchEnv plainRespEnv
        (.ok ())).responderInvocations =
      if (jsIsStr (some (Json.str "calendar_tool")) "general_chat" ||
          jsIsStr (some (Json.str "calendar_tool")) "gemini_response") = true then 1 else 0) ∧
    ((some (Json.str "calendar_tool") = some (Json.str "calendar_tool") ∨
        some (Json.str "calendar_tool") = some (Json.str "communication_tool") ∨
        some (Json.str "calendar_tool") = some (Json.str "image_generation")) →
      (handleSend true "alice" "Schedule lunch Friday" false toolOrchEnv plainRespEnv
        (.ok ())).responderInvocations = 0 ∧
      (handleSend true "alice" "Schedule lunch Friday" false toolOrchEnv plainRespEnv
        (.ok ())).finalResponse = some (orchestrationSummary
          (some (Json.str "calendar_tool")) (some (Json.str "Calendar API"))
          (some (Json.str "lunch Friday")) ++
        "\n\n**Tool Execution Mock:** The UI would now transition to the generated application form for " ++
        jsToStr (some (Json.str "Calendar API")) ++ ".")) :=
  claim_C4_responder_dispatch true "alice" "Schedule lunch Friday" false toolOrchEnv
    plainRespEnv (.ok ())
    (handleSend true "alice" "Schedule lunch Friday" false toolOrchEnv plainRespEnv (.ok ()))
    (Json.obj
      [ ("intent", .str "calendar_tool")
      , ("tool_triggered", .str "Calendar API")
      , ("arguments", Json.obj [("query", .str "lunch Friday")]) ])
    (some (Json.str "calendar_tool")) (some (Json.str "Calendar API"))
    (some (Json.str "lunch Friday")) rfl rfl rfl rfl

/-- C8 (amended): for a non-`error` intent the final system text is the
orchestration summary (with `**` bold markers around the intent)
followed by a stage-specific continuation; for the `error` intent the
text is the distinct `Orchestration Failure:` format instead; and the
composed string is the sole text payload of the system record. -/
theorem claim_C8_system_text_composition
    (hasDb : Bool) (userId newMessage : String) (isSending : Bool)
    (orchEnv respEnv : Nat → FetchStep) (commitResult : Except String Unit)
    (out : SendOutcome) (v : Json) (i t q : Option Json)
    (hout : out = handleSend hasDb userId newMessage isSending orchEnv respEnv commitResult)
    (hacc : out.accepted = true)
    (hor : out.orchestrationResult = some v)
    (hd : destructureOrch v = Except.ok (i, t, q)) :
    (jsIsStr i "error" = true →
      out.finalResponse = some ("Orchestration Failure: " ++ jsToStr t ++
        ". Details: " ++ jsToStr q)) ∧
    (jsIsStr i "error" = false →
      ∃ rest, out.finalResponse = some (orchestrationSummary i t q ++ rest)) ∧
    (∀ u a, out.batchRecords = [u, a] → some a.text = out.finalResponse) := by
  subst hout
  have hde := handleSend_destructure_none hasDb userId newMessage isSending
    orchEnv respEnv commitResult v i t q hor hd
  obtain ⟨i2, t2, q2, hd2, hrec⟩ := handleSend_ok_spec hasDb userId newMessage isSending
    orchEnv respEnv commitResult hacc hde
  have hv : v = orchestrationResultOf (callGeminiOrchestrator (jsTrim newMessage) orchEnv).2 := by
    rw [hrec] at hor
    injection hor with h
    exact h.symm
  rw [hv, hd2] at hd
  injection hd with htrip
  rw [Prod.mk.injEq, Prod.mk.injEq] at htrip
  obtain ⟨hi2, ht2, hq2⟩ := htrip
  rw [hi2, ht2, hq2] at hrec
  refine ⟨?_, ?_, ?_⟩
  · intro he
    rw [hrec]
    show some (branchResponse (jsTrim newMessage) i t q respEnv).1 = _
    unfold branchResponse
    simp only [he, if_true]
  · intro he
    rw [hrec]
    show ∃ rest, some (branchResponse (jsTrim newMessage) i t q respEnv).1 = _
    unfold branchResponse
    simp only [he, Bool.false_eq_true, if_false]
    by_cases hc : (jsIsStr i "general_chat" || jsIsStr i "gemini_response") = true
    · simp only [hc, if_true]
      cases (callGeminiResponseGenerator (jsTrim newMessage) i respEnv).2.result with
      | ret a =>
        simp only [String.append_assoc]
        exact ⟨_, rfl⟩
      | thrown m =>
        simp only [String.append_assoc]
        exact ⟨_, rfl⟩
    · rw [Bool.not_eq_true] at hc
      simp only [hc, Bool.false_eq_true, if_false]
      simp only [String.append_assoc]
      exact ⟨_, rfl⟩
  · intro u a hba
    rw [hrec] at hba ⊢
    simp only [List.cons.injEq, and_true] at hba
    obtain ⟨hu, ha⟩ := hba
    rw [← ha]

/-- Witness for C8 on a `general_chat` submission. -/
theorem claim_C8_witness :
    (jsIsStr (some (Json.str "general_chat")) "error" = true →
      (handleSend true "carol" "hi" false chatOrchEnv plainRespEnv (.ok ())).finalResponse =
        some ("Orchestration Failure: " ++ jsToStr (some (Json.str "Gemini Responder")) ++
          ". Details: " ++ jsToStr (some (Json.str "hi there")))) ∧
    (jsIsStr (some (Json.str "general_chat")) "error" = false →
      ∃ rest, (handleSend true "carol" "hi" false chatOrchEnv plainRespEnv (.ok ())).finalResponse =
        some (orchestrationSummary (some (Json.str "general_chat"))
          (some (Json.str "Gemini Responder")) (some (Json.str "hi there")) ++ rest)) ∧
    (∀ u a, (handleSend true "carol" "hi" false chatOrchEnv plainRespEnv (.ok ())).batchRecords = [u, a] →
      some a.text = (handleSend true "carol" "hi" false chatOrchEnv plainRespEnv (.ok ())).finalResponse) :=
  claim_C8_system_text_composition true "carol" "hi" false chatOrchEnv plainRespEnv (.ok ())
    (handleSend true "carol" "hi" false chatOrchEnv plainRespEnv (.ok ()))
    (Json.obj
      [ ("intent", .str "general_chat")
      , ("tool_triggered", .str "Gemini Responder")
      , ("arguments", Json.obj [("query", .str "hi there")]) ])
    (some (Json.str "general_chat")) (some (Json.str "Gemini Responder"))
    (some (Json.str "hi there")) rfl rfl rfl rfl

/-- A classifier environment answering a terminal HTTP 400. -/
def cexEnvC8 : Nat → FetchStep := fun _ => FetchStep.httpError 400

/-- Counterexample to C8 as stated: when the classified intent is
`error` the final system text uses the `Orchestration Failure:` format
and does not begin with `Intent Classified`. -/
theorem claim_C8_counterexample :
    (handleSend true "alice" "hi" false cexEnvC8 plainRespEnv (.ok ())).finalResponse =
      some "Orchestration Failure: API Failure. Details: Orchestrator API returned status 400" ∧
    "Intent Classified".data.isPrefixOf
      "Orchestration Failure: API Failure. Details: Orchestrator API returned status 400".data
      = false :=
  ⟨rfl, by decide⟩
